import Mathlib

/-!
Shallow embedding of the todo-backend CRUD service.

The source layout this file follows:
  * `app/schemas/todo.py`  — pydantic variants `TodoBase`/`TodoCreate`/`TodoUpdate`
  * `app/models/todo.py`   — the SQLAlchemy `Todo` row (with `TimeStampMixin`)
  * `app/crud/todo.py`     — the five data-access operations
  * `app/api/v1/endpoints/todos.py` — the request handlers
  * `app/core/migration_check.py`   — the startup migration check

The database session is modelled as an explicit `DB` state value threaded through
every operation: a list of rows, an autoincrement counter for the primary key, and
a clock used for the auto-managed timestamps.
-/

namespace TodoBackend

/-- A stored row of the `todos` table (`app/models/todo.py`).
Column values are modelled at Python attribute level: `title` is `Option String`
because `setattr` can assign `None` to the attribute even though the column is
declared `nullable=False` (the declaration itself is recorded separately in
`titleColumnNullable`); `completed` is `Column(Boolean, default=False)` with
SQLAlchemy default nullability; `due_date` is `Column(Date, nullable=True)`.
`created_at`/`updated_at` come from `TimeStampMixin`. Dates and datetimes are
modelled as `Nat` ticks. -/
structure Todo where
  id : Nat
  title : Option String
  completed : Option Bool
  due_date : Option Nat
  created_at : Nat
  updated_at : Nat
deriving Repr, DecidableEq

/-- Source `models/todo.py` line 10: `title = Column(String, nullable=False)` —
the title column is declared non-nullable. -/
def titleColumnNullable : Bool := false

/-- The NOT NULL check the storage engine runs when a row is written: the only
non-nullable mutable column is `title` (`completed` and `due_date` are nullable
at the column level). A row passes iff the column is nullable or the value is
present. -/
def rowSatisfiesNotNull (r : Todo) : Bool := titleColumnNullable || r.title.isSome

/-- The error `db.commit()` raises when a write violates the NOT NULL
constraint of the title column. -/
def integrityErrorMessage : String :=
  "IntegrityError: NOT NULL constraint failed: todos.title"

/-- The pydantic create variant (`TodoCreate`, inheriting `TodoBase`):
`title: str` (required), `completed: bool = False`, `due_date: Optional[date] = None`. -/
structure TodoCreate where
  title : String
  completed : Bool := false
  due_date : Option Nat := none
deriving Repr, DecidableEq

/-- The pydantic update variant (`TodoUpdate`): every field `Optional[...] = None`.
pydantic tracks which fields were explicitly supplied (`exclude_unset`), so each
field is `Option (Option α)`: the outer layer is presence in the payload, the inner
layer is the supplied value, which may itself be `none` (an explicit JSON null). -/
structure TodoUpdate where
  title : Option (Option String) := none
  completed : Option (Option Bool) := none
  due_date : Option (Option Nat) := none
deriving Repr, DecidableEq

/-- A JSON value as far as the todo payloads are concerned. -/
inductive JValue where
  | null
  | str (s : String)
  | bool (b : Bool)
  | date (d : Nat)
  | int (n : Nat)
deriving Repr, DecidableEq

/-- A decoded JSON object payload for the todo endpoints: for each known field,
whether the key is present and, if so, its value. -/
structure JPayload where
  title : Option JValue := none
  completed : Option JValue := none
  due_date : Option JValue := none
deriving Repr, DecidableEq

/-- pydantic validation of `TodoCreate` from a JSON payload: `title: str` must be
present and a string (an explicit null is not a `str`); `completed: bool = False`
defaults when absent and must be a boolean when present; `due_date: Optional[date] = None`
accepts absent, null, or a date. Any failure is a 422 validation error raised
before the handler body runs. -/
def TodoCreate.validate (p : JPayload) : Except String TodoCreate :=
  match p.title with
  | none => .error "field required: title"
  | some (JValue.str t) =>
    match p.completed with
    | none =>
      match p.due_date with
      | none => .ok { title := t, completed := false, due_date := none }
      | some JValue.null => .ok { title := t, completed := false, due_date := none }
      | some (JValue.date d) => .ok { title := t, completed := false, due_date := some d }
      | some _ => .error "type error: due_date"
    | some (JValue.bool b) =>
      match p.due_date with
      | none => .ok { title := t, completed := b, due_date := none }
      | some JValue.null => .ok { title := t, completed := b, due_date := none }
      | some (JValue.date d) => .ok { title := t, completed := b, due_date := some d }
      | some _ => .error "type error: due_date"
    | some _ => .error "type error: completed"
  | some _ => .error "type error: title"

/-- pydantic validation of `TodoUpdate` from a JSON payload: every field is
`Optional[...] = None`, so for each field an absent key leaves it unset, an
explicit null sets it to `None`, and a well-typed value sets it to that value.
Nothing rejects an explicit null for any field, `title` included. -/
def TodoUpdate.validate (p : JPayload) : Except String TodoUpdate :=
  match p.title with
  | none =>
    match p.completed with
    | none =>
      match p.due_date with
      | none => .ok { title := none, completed := none, due_date := none }
      | some JValue.null => .ok { title := none, completed := none, due_date := some none }
      | some (JValue.date d) => .ok { title := none, completed := none, due_date := some (some d) }
      | some _ => .error "type error: due_date"
    | some JValue.null =>
      match p.due_date with
      | none => .ok { title := none, completed := some none, due_date := none }
      | some JValue.null => .ok { title := none, completed := some none, due_date := some none }
      | some (JValue.date d) => .ok { title := none, completed := some none, due_date := some (some d) }
      | some _ => .error "type error: due_date"
    | some (JValue.bool b) =>
      match p.due_date with
      | none => .ok { title := none, completed := some (some b), due_date := none }
      | some JValue.null => .ok { title := none, completed := some (some b), due_date := some none }
      | some (JValue.date d) => .ok { title := none, completed := some (some b), due_date := some (some d) }
      | some _ => .error "type error: due_date"
    | some _ => .error "type error: completed"
  | some JValue.null =>
    match p.completed with
    | none =>
      match p.due_date with
      | none => .ok { title := some none, completed := none, due_date := none }
      | some JValue.null => .ok { title := some none, completed := none, due_date := some none }
      | some (JValue.date d) => .ok { title := some none, completed := none, due_date := some (some d) }
      | some _ => .error "type error: due_date"
    | some JValue.null =>
      match p.due_date with
      | none => .ok { title := some none, completed := some none, due_date := none }
      | some JValue.null => .ok { title := some none, completed := some none, due_date := some none }
      | some (JValue.date d) => .ok { title := some none, completed := some none, due_date := some (some d) }
      | some _ => .error "type error: due_date"
    | some (JValue.bool b) =>
      match p.due_date with
      | none => .ok { title := some none, completed := some (some b), due_date := none }
      | some JValue.null => .ok { title := some none, completed := some (some b), due_date := some none }
      | some (JValue.date d) => .ok { title := some none, completed := some (some b), due_date := some (some d) }
      | some _ => .error "type error: due_date"
    | some _ => .error "type error: completed"
  | some (JValue.str t) =>
    match p.completed with
    | none =>
      match p.due_date with
      | none => .ok { title := some (some t), completed := none, due_date := none }
      | some JValue.null => .ok { title := some (some t), completed := none, due_date := some none }
      | some (JValue.date d) => .ok { title := some (some t), completed := none, due_date := some (some d) }
      | some _ => .error "type error: due_date"
    | some JValue.null =>
      match p.due_date with
      | none => .ok { title := some (some t), completed := some none, due_date := none }
      | some JValue.null => .ok { title := some (some t), completed := some none, due_date := some none }
      | some (JValue.date d) => .ok { title := some (some t), completed := some none, due_date := some (some d) }
      | some _ => .error "type error: due_date"
    | some (JValue.bool b) =>
      match p.due_date with
      | none => .ok { title := some (some t), completed := some (some b), due_date := none }
      | some JValue.null => .ok { title := some (some t), completed := some (some b), due_date := some none }
      | some (JValue.date d) => .ok { title := some (some t), completed := some (some b), due_date := some (some d) }
      | some _ => .error "type error: due_date"
    | some _ => .error "type error: completed"
  | some _ => .error "type error: title"

/-- The database session state: the rows of the `todos` table, the autoincrement
counter for the integer primary key, and the session clock (used for the
auto-managed timestamps of `TimeStampMixin`). -/
structure DB where
  rows : List Todo
  nextId : Nat
  now : Nat
deriving Repr, DecidableEq

/-- Autoincrement invariant of the integer primary key: every stored id was
assigned from an earlier value of the counter. -/
def DB.WF (db : DB) : Prop := ∀ r ∈ db.rows, r.id < db.nextId

/-- The spec invariant that `id` uniquely identifies at most one live row. -/
def DB.UniqueIds (db : DB) : Prop := (db.rows.map (fun r => r.id)).Nodup

/-- The empty database. -/
def dbEmpty : DB := { rows := [], nextId := 1, now := 0 }

namespace Crud

/-- Source `crud/todo.py` `get_todos`: `db.query(Todo).all()`. -/
def get_todos (db : DB) : List Todo := db.rows

/-- Source `crud/todo.py` `get_todo`: `db.query(Todo).filter(Todo.id == id).first()` —
the first stored row whose id matches, or `None`. -/
def get_todo (db : DB) (id : Nat) : Option Todo :=
  db.rows.find? (fun r => r.id == id)

/-- Source `crud/todo.py` `create_todo`: builds `Todo(**todo.model_dump())`, adds,
commits, refreshes, returns the row. The id comes from the autoincrement
counter. `Modelled from the spec:` `app/models/base.py` (`TimeStampMixin`) is not
under src/; per the spec, `created_at` and `updated_at` are "set automatically on
insert", modelled as the session clock. -/
def create_todo (db : DB) (todo : TodoCreate) : Todo × DB :=
  let row : Todo :=
    { id := db.nextId, title := some todo.title, completed := some todo.completed,
      due_date := todo.due_date, created_at := db.now, updated_at := db.now }
  (row, { db with rows := db.rows ++ [row], nextId := db.nextId + 1 })

/-- The `for key, value in todo.model_dump(exclude_unset=True).items(): setattr(...)`
loop of `update_todo`: each field explicitly present in the payload is assigned to
the row attribute (its value may be `none`, an explicit null); absent fields are
excluded from the dump and never touched. -/
def applyUpdate (u : TodoUpdate) (r : Todo) : Todo :=
  let r1 := match u.title with
    | none => r
    | some v => { r with title := v }
  let r2 := match u.completed with
    | none => r1
    | some v => { r1 with completed := v }
  match u.due_date with
  | none => r2
  | some v => { r2 with due_date := v }

/-- Replace the first row matching the id — the single object returned by
`.first()` is the one mutated in place by the `setattr` loop. -/
def setFirst (id : Nat) (rNew : Todo) : List Todo → List Todo
  | [] => []
  | row :: rest => if row.id == id then rNew :: rest else row :: setFirst id rNew rest

/-- Source `crud/todo.py` `update_todo`: re-query by id; if absent return `None` with no
side effect; if present apply exactly the explicitly-set fields via the `setattr`
loop, then `db.commit()`. The commit enforces the NOT NULL constraint of the
title column: if the merged row nulls `title`, commit raises `IntegrityError`
(the `Except.error` branch) and nothing is persisted; otherwise the write
succeeds and the refreshed row is returned. `Modelled from the spec:`
`TimeStampMixin` is not under src/; per the spec `updated_at` is refreshed "on
every mutation", modelled as the session clock at commit. The row handed to `db.commit()` — the stored row as
mutated by the `setattr` loop, with the refreshed timestamp — is `commitRow`. -/
def commitRow (db : DB) (todo : TodoUpdate) (r : Todo) : Todo :=
  { applyUpdate todo r with updated_at := db.now }

def update_todo (db : DB) (id : Nat) (todo : TodoUpdate) :
    Except String (Option Todo × DB) :=
  match get_todo db id with
  | none => .ok (none, db)
  | some r =>
    if rowSatisfiesNotNull (commitRow db todo r) then
      .ok (some (commitRow db todo r),
        { db with rows := setFirst id (commitRow db todo r) db.rows })
    else
      .error integrityErrorMessage

/-- Source `crud/todo.py` `delete_todo`: query by id; if present, `db.delete` removes
that row and commits; either way return what the query found (the row as it
existed just before removal, or `None`). -/
def delete_todo (db : DB) (id : Nat) : Option Todo × DB :=
  match get_todo db id with
  | none => (none, db)
  | some r => (some r, { db with rows := db.rows.eraseP (fun row => row.id == id) })

end Crud

/-- The outcome of one request as seen by the client. `ok` and `okMessage` are
HTTP 200 responses; `httpError s d` is an HTTPException response with status `s`
and body detail `d`; `validationError` is the 422 the framework produces before
the handler body runs; `typeError` is an uncaught Python `TypeError` escaping the
handler (surfaced by the server as an internal error, not an HTTP 404);
`uncaughtError` is any other uncaught exception escaping the handler, such as the
`IntegrityError` raised by `db.commit()` — also an internal error, with the
session's uncommitted changes discarded. -/
inductive EndpointResult where
  | ok (t : Todo)
  | okMessage (message : String)
  | httpError (status_code : Nat) (detail : String)
  | validationError
  | typeError (msg : String)
  | uncaughtError (msg : String)
deriving Repr, DecidableEq

/-- The keyword parameters accepted by `fastapi.HTTPException.__init__`:
`status_code`, `detail`, `headers`. -/
def httpExceptionKeywords : List String := ["status_code", "detail", "headers"]

/-- A Python keyword-argument call of `HTTPException(...)`: if any keyword is not
a parameter name, or the required `status_code` is absent, Python raises
`TypeError` instead of constructing the exception. -/
def callHTTPException (kwargs : List (String × JValue)) : Except String (Nat × String) :=
  if kwargs.all (fun kv => httpExceptionKeywords.contains kv.1) then
    match (kwargs.find? (fun kv => kv.1 == "status_code")).map Prod.snd with
    | some (JValue.int n) =>
      match (kwargs.find? (fun kv => kv.1 == "detail")).map Prod.snd with
      | some (JValue.str d) => .ok (n, d)
      | _ => .ok (n, "")
    | _ => .error "TypeError: HTTPException missing required argument status_code"
  else
    .error "TypeError: HTTPException got an unexpected keyword argument"

/-- The not-found branch shared by the three handlers, exactly as written at the
call sites: `raise HTTPException(status=404, detail="Todo not found")` — note the
keyword is `status`, not `status_code`. -/
def notFoundResponse : EndpointResult :=
  match callHTTPException [("status", JValue.int 404), ("detail", JValue.str "Todo not found")] with
  | .ok (s, d) => .httpError s d
  | .error m => .typeError m

namespace Api

/-- Source `endpoints/todos.py` `get_todo` handler: fetch via crud; absent rows take the
`raise HTTPException(status=404, ...)` branch. -/
def get_todo (db : DB) (id : Nat) : EndpointResult :=
  match Crud.get_todo db id with
  | some t => .ok t
  | none => notFoundResponse

/-- Source `endpoints/todos.py` `create_todo` handler: the framework validates the body
into `TodoCreate` (422 before the handler body on failure), then the handler
returns `crud.create_todo` with the default 200 status. -/
def create_todo (db : DB) (p : JPayload) : EndpointResult × DB :=
  match TodoCreate.validate p with
  | .error _ => (.validationError, db)
  | .ok todo =>
    let res := Crud.create_todo db todo
    (.ok res.1, res.2)

/-- How the update handler body maps the outcome of `crud.update_todo`: an
`IntegrityError` from commit propagates unhandled (the session state is
discarded, leaving the database unchanged); a row answers 200; a falsy result
takes the buggy raise branch. -/
def dispatchUpdate (db : DB) (res : Except String (Option Todo × DB)) :
    EndpointResult × DB :=
  match res with
  | .error m => (.uncaughtError m, db)
  | .ok (some t, dbNew) => (.ok t, dbNew)
  | .ok (none, dbNew) => (notFoundResponse, dbNew)

/-- Source `endpoints/todos.py` `update_todo` handler: validate into `TodoUpdate`, call
`crud.update_todo`, and dispatch its outcome. -/
def update_todo (db : DB) (id : Nat) (p : JPayload) : EndpointResult × DB :=
  match TodoUpdate.validate p with
  | .error _ => (.validationError, db)
  | .ok u => dispatchUpdate db (Crud.update_todo db id u)

/-- Source `endpoints/todos.py` `delete_todo` handler: call `crud.delete_todo`; on a
falsy result take the buggy raise branch, otherwise answer the fixed message. -/
def delete_todo (db : DB) (id : Nat) : EndpointResult × DB :=
  match Crud.delete_todo db id with
  | (some _, dbNew) => (.okMessage "Todo deleted successfully", dbNew)
  | (none, dbNew) => (notFoundResponse, dbNew)

end Api

/-- The message `check_migrations` builds when the revisions differ, naming both
the current and the head revision (Python formats `None` as the text `None`). -/
def revText (rev : Option String) : String :=
  match rev with
  | none => "None"
  | some s => s

/-- The warning line of `migration_check.py` when the database is stale. -/
def migrationWarning (current_rev head_rev : Option String) : String :=
  "Database is not up to date! Current: " ++ revText current_rev ++
    ", Head: " ++ revText head_rev ++
    ". Run alembic upgrade head to apply pending migrations."

/-- Source `core/migration_check.py` `check_migrations`. The alembic and engine calls
inside the `try` block are external effects; their joint outcome is the input:
`Except` error for any exception while obtaining either revision, or the pair
(current revision, head revision), each possibly absent. The function returns the
Python result (`True` up to date, `False` stale, `None` indeterminate) together
with the lines it logs/prints, and cannot raise. -/
def check_migrations (revs : Except String (Option String × Option String)) :
    Option Bool × List String :=
  match revs with
  | .error e => (none, ["Error checking migrations: " ++ e])
  | .ok (current_rev, head_rev) =>
    if current_rev = head_rev then
      (some true, ["Database migrations are up to date."])
    else
      (some false, [migrationWarning current_rev head_rev])

section HelperLemmas

/-- Lemma: `find?` skips a prefix in which nothing satisfies the predicate. -/
theorem find?_append_right {α : Type} (p : α → Bool) (l₁ l₂ : List α)
    (h : ∀ a ∈ l₁, p a = false) : (l₁ ++ l₂).find? p = l₂.find? p := by
  induction l₁ with
  | nil => rfl
  | cons a l ih =>
    have ha : p a = false := h a (by simp)
    simp only [List.cons_append, List.find?, ha]
    exact ih (fun b hb => h b (by simp [hb]))

/-- After replacing the first matching row, `find?` returns the replacement,
provided the replacement still matches. -/
theorem find?_setFirst (id : Nat) (rNew : Todo) (l : List Todo) (r : Todo)
    (h : l.find? (fun row => row.id == id) = some r) (hid : (rNew.id == id) = true) :
    (Crud.setFirst id rNew l).find? (fun row => row.id == id) = some rNew := by
  induction l with
  | nil => simp [List.find?] at h
  | cons a l ih =>
    by_cases ha : (a.id == id) = true
    · simp only [Crud.setFirst, if_pos ha]
      exact List.find?_cons_of_pos _ hid
    · have e : List.find? (fun row => row.id == id) (a :: l)
          = List.find? (fun row => row.id == id) l := List.find?_cons_of_neg _ ha
      rw [e] at h
      simp only [Crud.setFirst, if_neg ha]
      have e2 : List.find? (fun row => row.id == id) (a :: Crud.setFirst id rNew l)
          = List.find? (fun row => row.id == id) (Crud.setFirst id rNew l) :=
        List.find?_cons_of_neg _ ha
      rw [e2]
      exact ih h

/-- With pairwise-distinct ids, erasing the first (hence only) row that matches
an id leaves no row matching it. -/
theorem find?_eraseP_nodup (id : Nat) (l : List Todo) (r : Todo)
    (hnd : (l.map (fun row => row.id)).Nodup)
    (h : l.find? (fun row => row.id == id) = some r) :
    (l.eraseP (fun row => row.id == id)).find? (fun row => row.id == id) = none := by
  induction l with
  | nil => simp [List.find?] at h
  | cons a l ih =>
    simp only [List.map_cons, List.nodup_cons, List.mem_map] at hnd
    obtain ⟨hna, hnd'⟩ := hnd
    by_cases ha : (a.id == id) = true
    · have e : List.eraseP (fun row => row.id == id) (a :: l) = l :=
        List.eraseP_cons_of_pos ha
      rw [e]
      apply List.find?_eq_none.mpr
      intro x hx hpx
      exact hna ⟨x, hx, by
        have hxe : x.id = id := by simpa using hpx
        have hae : a.id = id := by simpa using ha
        rw [hxe, hae]⟩
    · have e : List.eraseP (fun row => row.id == id) (a :: l)
          = a :: List.eraseP (fun row => row.id == id) l :=
        List.eraseP_cons_of_neg ha
      rw [e]
      have e2 : List.find? (fun row => row.id == id) (a :: l)
          = List.find? (fun row => row.id == id) l := List.find?_cons_of_neg _ ha
      rw [e2] at h
      have e3 : List.find? (fun row => row.id == id)
            (a :: List.eraseP (fun row => row.id == id) l)
          = List.find? (fun row => row.id == id)
            (List.eraseP (fun row => row.id == id) l) := List.find?_cons_of_neg _ ha
      rw [e3]
      exact ih hnd' h

/-- The updated row produced by `update_todo` on a found row `r`: each field
explicitly present in the payload takes its supplied value, each absent field
keeps the stored value, and `updated_at` is refreshed to the session clock. -/
def updatedRow (db : DB) (u : TodoUpdate) (r : Todo) : Todo :=
  { r with
    title := u.title.getD r.title,
    completed := u.completed.getD r.completed,
    due_date := u.due_date.getD r.due_date,
    updated_at := db.now }

/-- Lemma: `applyUpdate` computes exactly the per-field merge. -/
theorem applyUpdate_eq (u : TodoUpdate) (r : Todo) :
    Crud.applyUpdate u r =
      { r with
        title := u.title.getD r.title,
        completed := u.completed.getD r.completed,
        due_date := u.due_date.getD r.due_date } := by
  rcases u with ⟨t, c, d⟩
  cases t <;> cases c <;> cases d <;> rfl

/-- Lemma: the row the `setattr` loop plus timestamp refresh hands to commit is
exactly the per-field merge `updatedRow`. -/
theorem commitRow_eq (db : DB) (u : TodoUpdate) (r : Todo) :
    Crud.commitRow db u r = updatedRow db u r := by
  unfold Crud.commitRow
  rw [applyUpdate_eq]
  rfl

/-- Lemma: a merged row whose title is non-null passes the NOT NULL check. -/
theorem rowSatisfiesNotNull_of_title (db : DB) (u : TodoUpdate) (r : Todo)
    (hT : u.title.getD r.title ≠ none) :
    rowSatisfiesNotNull (updatedRow db u r) = true := by
  unfold rowSatisfiesNotNull updatedRow titleColumnNullable
  simpa using Option.isSome_iff_ne_none.mpr hT

/-- The behaviour of `update_todo` when the row is found and the merged row
passes the NOT NULL check: commit succeeds, the merged row (with refreshed
`updated_at`) is returned, and it replaces the first matching stored row. -/
theorem update_todo_found (db : DB) (id : Nat) (u : TodoUpdate) (r : Todo)
    (h : Crud.get_todo db id = some r)
    (hok : rowSatisfiesNotNull (updatedRow db u r) = true) :
    Crud.update_todo db id u =
      Except.ok (some (updatedRow db u r),
       { db with rows := Crud.setFirst id (updatedRow db u r) db.rows }) := by
  unfold Crud.update_todo
  rw [h]
  show (if rowSatisfiesNotNull (Crud.commitRow db u r) then
      Except.ok (some (Crud.commitRow db u r),
        { db with rows := Crud.setFirst id (Crud.commitRow db u r) db.rows })
    else Except.error integrityErrorMessage) =
    Except.ok (some (updatedRow db u r),
      { db with rows := Crud.setFirst id (updatedRow db u r) db.rows })
  rw [commitRow_eq db u r, hok]
  rfl

/-- The behaviour of `update_todo` when the row is found but the merged row
nulls the NOT NULL title column: commit raises `IntegrityError` and nothing is
persisted. -/
theorem update_todo_integrity_error (db : DB) (id : Nat) (u : TodoUpdate) (r : Todo)
    (h : Crud.get_todo db id = some r)
    (hbad : rowSatisfiesNotNull (updatedRow db u r) = false) :
    Crud.update_todo db id u = Except.error integrityErrorMessage := by
  unfold Crud.update_todo
  rw [h]
  show (if rowSatisfiesNotNull (Crud.commitRow db u r) then
      Except.ok (some (Crud.commitRow db u r),
        { db with rows := Crud.setFirst id (Crud.commitRow db u r) db.rows })
    else Except.error integrityErrorMessage) =
    Except.error integrityErrorMessage
  rw [commitRow_eq db u r, hbad]
  rfl

/-- A found row has the id it was found by. -/
theorem find?_id_beq (db : DB) (id : Nat) (r : Todo)
    (h : Crud.get_todo db id = some r) : (r.id == id) = true := by
  have := List.find?_some h
  exact this

end HelperLemmas

instance (db : DB) : Decidable db.WF := by
  unfold DB.WF
  infer_instance

instance (db : DB) : Decidable db.UniqueIds := by
  unfold DB.UniqueIds
  exact List.nodupDecidable _

/-- A concrete stored row used in witnesses. -/
def rowOne : Todo :=
  { id := 1, title := some "Buy milk", completed := some false, due_date := some 7,
    created_at := 2, updated_at := 2 }

/-- A concrete one-row database used in witnesses. -/
def dbOne : DB := { rows := [rowOne], nextId := 2, now := 5 }

/-- A concrete partial update that sets only `completed`. -/
def updCompleted : TodoUpdate := { completed := some (some true) }

/-- A concrete create input carrying only a title. -/
def todoX : TodoCreate := { title := "Minimal todo" }

/-- C1 counterexample: the claim quantifies over every partial-update input, but
at the concrete input that explicitly sets title to null, on stored row 1,
`update(1, p)` does not return the updated row: `db.commit()` raises
`IntegrityError` because the merged row nulls the NOT NULL title column. -/
theorem null_title_update_not_returned :
    Crud.update_todo dbOne 1 { title := some none } =
      Except.error integrityErrorMessage := rfl

/-- C1 (amended): for every stored row with id `i` and every partial-update
input `p` whose merged row keeps the non-nullable title column non-null,
`update(i, p)` applies exactly the fields explicitly present in `p` (each absent
field keeps its stored value, so an omitted optional field is not overwritten
with null), refreshes `updated_at`, returns the updated row, and the updated row
is what is now stored under that id. (A `p` that nulls `title` instead raises
`IntegrityError` at commit.) -/
theorem update_applies_exactly_present_fields (db : DB) (id : Nat) (u : TodoUpdate)
    (r : Todo) (h : Crud.get_todo db id = some r)
    (hT : u.title.getD r.title ≠ none) :
    Crud.update_todo db id u =
      Except.ok
        (some { r with
            title := u.title.getD r.title,
            completed := u.completed.getD r.completed,
            due_date := u.due_date.getD r.due_date,
            updated_at := db.now },
         { db with
            rows := Crud.setFirst id
              ({ r with
                  title := u.title.getD r.title,
                  completed := u.completed.getD r.completed,
                  due_date := u.due_date.getD r.due_date,
                  updated_at := db.now })
              db.rows }) ∧
    Crud.get_todo
        { db with
            rows := Crud.setFirst id
              ({ r with
                  title := u.title.getD r.title,
                  completed := u.completed.getD r.completed,
                  due_date := u.due_date.getD r.due_date,
                  updated_at := db.now })
              db.rows } id =
      some { r with
        title := u.title.getD r.title,
        completed := u.completed.getD r.completed,
        due_date := u.due_date.getD r.due_date,
        updated_at := db.now } := by
  have hok := rowSatisfiesNotNull_of_title db u r hT
  constructor
  · exact update_todo_found db id u r h hok
  · show List.find? (fun row => row.id == id)
        (Crud.setFirst id (updatedRow db u r) db.rows) = some (updatedRow db u r)
    exact find?_setFirst id (updatedRow db u r) db.rows r h (find?_id_beq db id r h)

/-- Witness for the amended C1 at a concrete database, row and partial update. -/
theorem update_applies_exactly_present_fields_witness :
    Crud.get_todo dbOne 1 = some rowOne ∧
    updCompleted.title.getD rowOne.title ≠ none ∧
    (Crud.update_todo dbOne 1 updCompleted =
      Except.ok
        (some { rowOne with
            title := updCompleted.title.getD rowOne.title,
            completed := updCompleted.completed.getD rowOne.completed,
            due_date := updCompleted.due_date.getD rowOne.due_date,
            updated_at := dbOne.now },
         { dbOne with
            rows := Crud.setFirst 1
              ({ rowOne with
                  title := updCompleted.title.getD rowOne.title,
                  completed := updCompleted.completed.getD rowOne.completed,
                  due_date := updCompleted.due_date.getD rowOne.due_date,
                  updated_at := dbOne.now })
              dbOne.rows }) ∧
    Crud.get_todo
        { dbOne with
            rows := Crud.setFirst 1
              ({ rowOne with
                  title := updCompleted.title.getD rowOne.title,
                  completed := updCompleted.completed.getD rowOne.completed,
                  due_date := updCompleted.due_date.getD rowOne.due_date,
                  updated_at := dbOne.now })
              dbOne.rows } 1 =
      some { rowOne with
        title := updCompleted.title.getD rowOne.title,
        completed := updCompleted.completed.getD rowOne.completed,
        due_date := updCompleted.due_date.getD rowOne.due_date,
        updated_at := dbOne.now }) :=
  ⟨by decide, by decide,
   update_applies_exactly_present_fields dbOne 1 updCompleted rowOne (by decide) (by decide)⟩

/-- C2: creating a todo and then reading back by the returned id yields exactly
the row that create returned, for any database satisfying the autoincrement
invariant on the primary key. -/
theorem create_get_roundtrip (db : DB) (x : TodoCreate) (hwf : db.WF) :
    Crud.get_todo (Crud.create_todo db x).2 (Crud.create_todo db x).1.id
      = some (Crud.create_todo db x).1 := by
  show List.find? (fun r => r.id == (Crud.create_todo db x).1.id)
      (db.rows ++ [(Crud.create_todo db x).1]) = some (Crud.create_todo db x).1
  rw [find?_append_right]
  · exact List.find?_cons_of_pos _ (by simp)
  · intro a ha
    have hlt := hwf a ha
    have hne : a.id ≠ db.nextId := Nat.ne_of_lt hlt
    simpa using hne

/-- Witness for C2 at the empty database. -/
theorem create_get_roundtrip_witness :
    DB.WF dbEmpty ∧
    Crud.get_todo (Crud.create_todo dbEmpty todoX).2 (Crud.create_todo dbEmpty todoX).1.id
      = some (Crud.create_todo dbEmpty todoX).1 :=
  ⟨by decide, create_get_roundtrip dbEmpty todoX (by decide)⟩

/-- C3 (code evaluated at the failing input): on an id with no matching row, none
of the three handlers produces the 404 response with detail "Todo not found";
each instead raises a Python `TypeError`, because the raise site passes the
keyword `status` to `HTTPException`, whose parameter is named `status_code`. -/
theorem notfound_handlers_raise_typeerror :
    Api.get_todo dbEmpty 7 =
      EndpointResult.typeError "TypeError: HTTPException got an unexpected keyword argument" ∧
    (Api.update_todo dbEmpty 7 { title := some (JValue.str "x") }).1 =
      EndpointResult.typeError "TypeError: HTTPException got an unexpected keyword argument" ∧
    (Api.delete_todo dbEmpty 7).1 =
      EndpointResult.typeError "TypeError: HTTPException got an unexpected keyword argument" ∧
    Api.get_todo dbEmpty 7 ≠ EndpointResult.httpError 404 "Todo not found" := by
  refine ⟨rfl, rfl, rfl, ?_⟩
  decide

/-- C4 counterexample: a create payload whose title is present but empty is NOT
rejected — validation accepts the empty string (plain `str`, no non-empty
constraint) and a row IS persisted. -/
theorem empty_title_create_accepted :
    (Api.create_todo dbEmpty { title := some (JValue.str "") }).1 =
      EndpointResult.ok
        { id := 1, title := some "", completed := some false, due_date := none,
          created_at := 0, updated_at := 0 } ∧
    ((Api.create_todo dbEmpty { title := some (JValue.str "") }).2).rows.length = 1 := by
  decide

/-- C4 (amended): every create payload whose title key is missing is rejected
with a 422 validation error before the handler body runs, and no row is
persisted — the database is returned unchanged. -/
theorem missing_title_create_rejected (db : DB) (p : JPayload) (h : p.title = none) :
    Api.create_todo db p = (EndpointResult.validationError, db) := by
  rcases p with ⟨pt, pc, pd⟩
  simp only at h
  subst h
  rfl

/-- Witness for the amended C4 at the empty payload. -/
theorem missing_title_create_rejected_witness :
    ({} : JPayload).title = none ∧
    Api.create_todo dbEmpty {} = (EndpointResult.validationError, dbEmpty) :=
  ⟨rfl, missing_title_create_rejected dbEmpty {} rfl⟩

/-- C5: on an id with no matching row, both `update_todo` and `delete_todo`
return the not-found signal (`none`) and leave the database state exactly as it
was: no row created, mutated or removed. -/
theorem absent_id_update_delete_noop (db : DB) (id : Nat) (u : TodoUpdate)
    (h : Crud.get_todo db id = none) :
    Crud.update_todo db id u = Except.ok (none, db) ∧
    Crud.delete_todo db id = (none, db) := by
  constructor
  · unfold Crud.update_todo
    rw [h]
  · unfold Crud.delete_todo
    rw [h]

/-- Witness for C5 at the empty database. -/
theorem absent_id_update_delete_noop_witness :
    Crud.get_todo dbEmpty 3 = none ∧
    (Crud.update_todo dbEmpty 3 updCompleted = Except.ok (none, dbEmpty) ∧
     Crud.delete_todo dbEmpty 3 = (none, dbEmpty)) :=
  ⟨by decide, absent_id_update_delete_noop dbEmpty 3 updCompleted (by decide)⟩

/-- C6: on an id with a matching row (ids being unique), `delete_todo` returns
the row as it existed just before removal, and a subsequent `get_todo` on the
resulting state returns the not-found signal. -/
theorem delete_found_removes_row (db : DB) (id : Nat) (r : Todo)
    (hnd : db.UniqueIds) (h : Crud.get_todo db id = some r) :
    (Crud.delete_todo db id).1 = some r ∧
    Crud.get_todo (Crud.delete_todo db id).2 id = none := by
  unfold Crud.delete_todo
  rw [h]
  refine ⟨rfl, ?_⟩
  show List.find? (fun row => row.id == id)
      (db.rows.eraseP (fun row => row.id == id)) = none
  exact find?_eraseP_nodup id db.rows r hnd h

/-- Witness for C6 at the one-row database. -/
theorem delete_found_removes_row_witness :
    DB.UniqueIds dbOne ∧ Crud.get_todo dbOne 1 = some rowOne ∧
    ((Crud.delete_todo dbOne 1).1 = some rowOne ∧
     Crud.get_todo (Crud.delete_todo dbOne 1).2 1 = none) :=
  ⟨by decide, by decide, delete_found_removes_row dbOne 1 rowOne (by decide) (by decide)⟩

/-- C7: a create payload supplying only a title validates, succeeds with a 200
response, and the returned row is fully populated: `completed` is false,
`due_date` is null, the id comes from the autoincrement counter and both
timestamps are set to the session clock. -/
theorem create_minimal_defaults (db : DB) (t : String) :
    Api.create_todo db { title := some (JValue.str t) } =
      (EndpointResult.ok
        { id := db.nextId, title := some t, completed := some false, due_date := none,
          created_at := db.now, updated_at := db.now },
       { rows := db.rows ++
           [{ id := db.nextId, title := some t, completed := some false, due_date := none,
              created_at := db.now, updated_at := db.now }],
         nextId := db.nextId + 1, now := db.now }) := rfl

/-- C8: the startup migration check is a total tri-state function of the outcome
of obtaining the two revisions: an error yields the indeterminate result `none`
(never a raise), equal revisions yield `some true` ("up to date"), and differing
revisions yield `some false` together with the warning line naming both
revisions. -/
theorem check_migrations_tristate (e : String) (c h : Option String) :
    check_migrations (Except.error e) = (none, ["Error checking migrations: " ++ e]) ∧
    check_migrations (Except.ok (c, h)) =
      (if c = h then (some true, ["Database migrations are up to date."])
       else (some false, [migrationWarning c h])) :=
  ⟨rfl, rfl⟩

/-- C9: partial update distinguishes an omitted field from one explicitly set to
null: on any stored row, a payload whose `due_date` is explicitly null writes
null to `due_date`, while a payload omitting `due_date` leaves the stored value
unchanged (other fields treated identically in both runs; the title component of
the merge must stay non-null, otherwise commit itself fails). -/
theorem explicit_null_vs_omitted_due_date (db : DB) (id : Nat) (r : Todo)
    (t : Option (Option String)) (c : Option (Option Bool))
    (h : Crud.get_todo db id = some r) (hT : t.getD r.title ≠ none) :
    (Crud.update_todo db id
        ({ title := t, completed := c, due_date := some none })).map Prod.fst =
      Except.ok
        (some { r with
            title := t.getD r.title,
            completed := c.getD r.completed,
            due_date := none,
            updated_at := db.now }) ∧
    (Crud.update_todo db id
        ({ title := t, completed := c, due_date := none })).map Prod.fst =
      Except.ok
        (some { r with
            title := t.getD r.title,
            completed := c.getD r.completed,
            due_date := r.due_date,
            updated_at := db.now }) := by
  constructor
  · rw [update_todo_found db id { title := t, completed := c, due_date := some none } r h
        (rowSatisfiesNotNull_of_title db _ r hT)]
    rfl
  · rw [update_todo_found db id { title := t, completed := c, due_date := none } r h
        (rowSatisfiesNotNull_of_title db _ r hT)]
    rfl

/-- Witness for C9 at the one-row database. -/
theorem explicit_null_vs_omitted_due_date_witness :
    Crud.get_todo dbOne 1 = some rowOne ∧
    (none : Option (Option String)).getD rowOne.title ≠ none ∧
    ((Crud.update_todo dbOne 1
        ({ title := none, completed := none, due_date := some none })).map Prod.fst =
      Except.ok
        (some { rowOne with
            title := (none : Option (Option String)).getD rowOne.title,
            completed := (none : Option (Option Bool)).getD rowOne.completed,
            due_date := none,
            updated_at := dbOne.now }) ∧
    (Crud.update_todo dbOne 1
        ({ title := none, completed := none, due_date := none })).map Prod.fst =
      Except.ok
        (some { rowOne with
            title := (none : Option (Option String)).getD rowOne.title,
            completed := (none : Option (Option Bool)).getD rowOne.completed,
            due_date := rowOne.due_date,
            updated_at := dbOne.now })) :=
  ⟨by decide, by decide,
   explicit_null_vs_omitted_due_date dbOne 1 rowOne none none (by decide) (by decide)⟩

/-- C10 counterexample: at the concrete request that explicitly nulls the title
of stored row 1, the program does not assign null to the non-nullable title
column: the handler ends in the uncaught `IntegrityError` from commit, the
database is returned unchanged, and the stored title is still non-null. -/
theorem null_title_never_assigned :
    Api.update_todo dbOne 1 { title := some JValue.null } =
      (EndpointResult.uncaughtError integrityErrorMessage, dbOne) ∧
    Crud.get_todo dbOne 1 = some rowOne ∧
    rowOne.title = some "Buy milk" :=
  ⟨rfl, rfl, rfl⟩

/-- C10 (amended): the update variant accepts an explicit null for the required
`title` field — no validation layer rejects it — but the attempt to persist it
then fails: on any stored row, `db.commit()` raises `IntegrityError` from the
NOT NULL title column, the request ends as an unhandled error, and the stored
state is unchanged (null never reaches the column). -/
theorem update_null_title_fails_at_commit (db : DB) (id : Nat) (r : Todo)
    (h : Crud.get_todo db id = some r) :
    TodoUpdate.validate { title := some JValue.null } =
      Except.ok { title := some none, completed := none, due_date := none } ∧
    Crud.update_todo db id { title := some none } =
      Except.error integrityErrorMessage ∧
    Api.update_todo db id { title := some JValue.null } =
      (EndpointResult.uncaughtError integrityErrorMessage, db) := by
  have herr : Crud.update_todo db id { title := some none } =
      Except.error integrityErrorMessage :=
    update_todo_integrity_error db id { title := some none } r h rfl
  refine ⟨rfl, herr, ?_⟩
  show Api.dispatchUpdate db
      (Crud.update_todo db id { title := some none, completed := none, due_date := none }) =
    (EndpointResult.uncaughtError integrityErrorMessage, db)
  rw [herr]
  rfl

/-- Witness for the amended C10 at the one-row database. -/
theorem update_null_title_fails_at_commit_witness :
    Crud.get_todo dbOne 1 = some rowOne ∧
    (TodoUpdate.validate { title := some JValue.null } =
      Except.ok { title := some none, completed := none, due_date := none } ∧
    Crud.update_todo dbOne 1 { title := some none } =
      Except.error integrityErrorMessage ∧
    Api.update_todo dbOne 1 { title := some JValue.null } =
      (EndpointResult.uncaughtError integrityErrorMessage, dbOne)) :=
  ⟨by decide, update_null_title_fails_at_commit dbOne 1 rowOne (by decide)⟩

end TodoBackend
